import Mathlib

namespace Swiftboost

/-! Tier and credit gate of the Swiftboost platform.  The middleware holding
the gate (`swift-digital/middleware/tierMiddleware.js`) is referenced by the
repository documentation but its source is not among the provided files, so
the gate below is modelled from the specification (spec.md, sections 3-5).
The theme route and the data-route authentication wiring at the end of the
file are translated directly from `src/app.js`. -/

/-- Modelled from the spec: the four ordered subscription tiers
(Free, Core, Pro, Pro+), spec section 3 "Tier Definition". -/
inductive Tier
  | free
  | core
  | pro
  | proPlus
deriving DecidableEq, Repr

/-- Modelled from the spec: tier ordered rank (Free=0 ... Pro+=3). -/
def Tier.rank : Tier → Nat
  | .free => 0
  | .core => 1
  | .pro => 2
  | .proPlus => 3

/-- Modelled from the spec: a per-category quota is an integer per window
or the "unlimited" sentinel. -/
inductive Quota
  | unlimited
  | limited (n : Nat)
deriving DecidableEq, Repr

/-- Modelled from the spec: the structured deny reasons, spec section 7. -/
inductive DenyReason
  | tier_insufficient
  | quota_exceeded
  | unknown_feature
  | principal_not_found
deriving DecidableEq, Repr

/-- Modelled from the spec: the remaining field of a gate decision,
"integer|unlimited". -/
inductive Remaining
  | unlimited
  | finite (n : Nat)
deriving DecidableEq, Repr

/-- Modelled from the spec: the ephemeral Gate Decision value
{allowed, reason, remaining}, extended with the minimum tier reported on a
tier_insufficient deny (spec section 4.1 step 2). -/
structure GateDecision where
  allowed : Bool
  reason : Option DenyReason
  remaining : Remaining
  minTierNeeded : Option Tier
deriving DecidableEq, Repr

/-- Modelled from the spec: a feature resolves to exactly one category, one
base cost per use, a required minimum tier, and a tier-exclusive flag. -/
structure FeatureDef where
  category : String
  cost : Nat
  requiredTier : Tier
  exclusive : Bool
deriving DecidableEq, Repr

/-- Modelled from the spec: a principal record with tier, usage-window
anchor timestamp, and per-category usage counters. -/
structure Principal where
  pid : String
  tier : Tier
  windowAnchor : Nat
  counters : String → Nat

/-- Modelled from the spec: the static tier/feature configuration table:
feature lookup, per-tier per-category quotas, and the window length. -/
structure GateConfig where
  features : String → Option FeatureDef
  quota : Tier → String → Quota
  windowLength : Nat

/-- Pointwise update of a counters map at one category. -/
def setCounter (f : String → Nat) (c : String) (n : Nat) : String → Nat :=
  fun x => if x = c then n else f x

/-- Modelled from the spec: the effective-window computation of
section 4.1 step 3.  If `windowLength <= now - anchor` the counter is
treated as reset to 0 and the anchor advances by
`floor((now - anchor) / windowLength) * windowLength`; otherwise the state
is unchanged.  Returns (effective anchor, effective counter). -/
def rollover (len now anchor counter : Nat) : Nat × Nat :=
  if len ≤ now - anchor then
    (anchor + ((now - anchor) / len) * len, 0)
  else
    (anchor, counter)

/-- Modelled from the spec: `checkAccess(principal, featureId)`,
section 4.1.  A pure decision: unknown feature, tier gate, effective
window, unlimited sentinel, quota comparison, allow. -/
def checkAccess (cfg : GateConfig) (now : Nat) (p : Principal) (fid : String) :
    GateDecision :=
  match cfg.features fid with
  | none =>
      { allowed := false, reason := some DenyReason.unknown_feature,
        remaining := Remaining.finite 0, minTierNeeded := none }
  | some f =>
      if p.tier.rank < f.requiredTier.rank then
        { allowed := false, reason := some DenyReason.tier_insufficient,
          remaining := Remaining.finite 0, minTierNeeded := some f.requiredTier }
      else
        let cnt := (rollover cfg.windowLength now p.windowAnchor (p.counters f.category)).2
        match cfg.quota p.tier f.category with
        | Quota.unlimited =>
            { allowed := true, reason := none,
              remaining := Remaining.unlimited, minTierNeeded := none }
        | Quota.limited q =>
            if q < cnt + f.cost then
              { allowed := false, reason := some DenyReason.quota_exceeded,
                remaining := Remaining.finite (q - cnt), minTierNeeded := none }
            else
              { allowed := true, reason := none,
                remaining := Remaining.finite (q - cnt), minTierNeeded := none }

/-- Modelled from the spec: `checkAccess` as a state transformer, making
explicit that the pure check alone mutates no principal state
(section 4.1 step 6: "this call alone does not mutate state"). -/
def checkAccessS (cfg : GateConfig) (now : Nat) (p : Principal) (fid : String) :
    GateDecision × Principal :=
  (checkAccess cfg now p fid, p)

/-- Modelled from the spec: `consume(principal, featureId)`, section 4.1.
Re-validates under the same rules atomically with the increment; on success
increments the category counter by the feature's cost (persisting the
rolled-over window) and returns the new remaining value; on failure returns
the deny and leaves the principal unchanged. -/
def consume (cfg : GateConfig) (now : Nat) (p : Principal) (fid : String) :
    GateDecision × Principal :=
  match cfg.features fid with
  | none =>
      ({ allowed := false, reason := some DenyReason.unknown_feature,
         remaining := Remaining.finite 0, minTierNeeded := none }, p)
  | some f =>
      if p.tier.rank < f.requiredTier.rank then
        ({ allowed := false, reason := some DenyReason.tier_insufficient,
           remaining := Remaining.finite 0, minTierNeeded := some f.requiredTier }, p)
      else
        let r := rollover cfg.windowLength now p.windowAnchor (p.counters f.category)
        match cfg.quota p.tier f.category with
        | Quota.unlimited =>
            ({ allowed := true, reason := none,
               remaining := Remaining.unlimited, minTierNeeded := none },
             { p with windowAnchor := r.1,
                      counters := setCounter p.counters f.category (r.2 + f.cost) })
        | Quota.limited q =>
            if q < r.2 + f.cost then
              ({ allowed := false, reason := some DenyReason.quota_exceeded,
                 remaining := Remaining.finite (q - r.2), minTierNeeded := none }, p)
            else
              ({ allowed := true, reason := none,
                 remaining := Remaining.finite (q - (r.2 + f.cost)), minTierNeeded := none },
               { p with windowAnchor := r.1,
                        counters := setCounter p.counters f.category (r.2 + f.cost) })

/-- Modelled from the spec: `applyTierChange(principal, newTier,
effectiveAt)`, section 4.1.  Updates the tier once effective; never touches
counters or window anchor (no clamping, no refund). -/
def applyTierChange (p : Principal) (newTier : Tier) (effectiveAt now : Nat) :
    Principal :=
  if effectiveAt ≤ now then { p with tier := newTier } else p

/-- Modelled from the spec: whether a feature is unlocked at a tier, a pure
function of the tier and the static table (`resolveFeatureVisibility`,
section 4.1): unlocked exactly when the tier's rank reaches the feature's
required minimum tier rank ("available only at that exact tier or above"). -/
def unlockedAt (cfg : GateConfig) (t : Tier) (fid : String) : Bool :=
  match cfg.features fid with
  | some f => decide (f.requiredTier.rank ≤ t.rank)
  | none => false

/-- A run of sequential atomic `consume` calls for one feature: returns
(number of allowed calls, number of quota_exceeded denials, final
principal).  Since the spec mandates that each consume is a single atomic
operation (section 5), any schedule of N concurrent calls is a
serialisation, i.e. such a run. -/
def consumeRun (cfg : GateConfig) (now : Nat) (fid : String) :
    Nat → Principal → Nat × Nat × Principal
  | 0, p => (0, 0, p)
  | n + 1, p =>
      let step := consume cfg now p fid
      let rest := consumeRun cfg now fid n step.2
      if step.1.allowed then (rest.1 + 1, rest.2.1, rest.2.2)
      else if step.1.reason = some DenyReason.quota_exceeded then
        (rest.1, rest.2.1 + 1, rest.2.2)
      else (rest.1, rest.2.1, rest.2.2)

/-- A sample non-exclusive Core-tier feature used for concrete scenarios. -/
def sampleFeature : FeatureDef :=
  { category := "content", cost := 1, requiredTier := Tier.core, exclusive := false }

/-- A sample Pro+-exclusive Intelligence Suite feature. -/
def intelFeature : FeatureDef :=
  { category := "intelligence", cost := 1, requiredTier := Tier.proPlus, exclusive := true }

/-- A sample static configuration for concrete scenarios: Core quota 50 and
Pro quota 100 for the content category, Pro+ unlimited, 30-unit window. -/
def sampleCfg : GateConfig where
  features := fun fid =>
    if fid = "post" then some sampleFeature
    else if fid = "competitor_intel" then some intelFeature
    else none
  quota := fun t c =>
    if c = "content" then
      match t with
      | Tier.free => Quota.limited 5
      | Tier.core => Quota.limited 50
      | Tier.pro => Quota.limited 100
      | Tier.proPlus => Quota.unlimited
    else Quota.limited 0
  windowLength := 30

/-- A Core-tier principal with 8 content uses this window. -/
def p0 : Principal :=
  { pid := "u1", tier := Tier.core, windowAnchor := 0,
    counters := fun c => if c = "content" then 8 else 0 }

/-- A Core-tier principal with 48 of 50 content uses this window. -/
def pRace : Principal :=
  { pid := "u2", tier := Tier.core, windowAnchor := 0,
    counters := fun c => if c = "content" then 48 else 0 }

/-- A Pro-tier principal with 80 of 100 content uses this window. -/
def pPro : Principal :=
  { pid := "u3", tier := Tier.pro, windowAnchor := 0,
    counters := fun c => if c = "content" then 80 else 0 }

/-- A Free-tier principal with no usage. -/
def pFree : Principal :=
  { pid := "u4", tier := Tier.free, windowAnchor := 0, counters := fun _ => 0 }

/-- A fresh window is left untouched by the rollover computation. -/
theorem rollover_fresh (len now anchor counter : Nat) (h : now - anchor < len) :
    rollover len now anchor counter = (anchor, counter) := by
  unfold rollover
  rw [if_neg (Nat.not_le.mpr h)]

/-- A stale window rolls to the advanced anchor with counter 0. -/
theorem rollover_stale_eq (len now anchor counter : Nat) (h : len ≤ now - anchor) :
    rollover len now anchor counter =
      (anchor + ((now - anchor) / len) * len, 0) := by
  unfold rollover
  rw [if_pos h]

/-- After a stale rollover with positive window length, the new anchor is
within one window length of `now`. -/
theorem rollover_lt (len now anchor : Nat) (hL : 0 < len) :
    now - (anchor + ((now - anchor) / len) * len) < len := by
  have h1 : len * ((now - anchor) / len) + (now - anchor) % len = now - anchor :=
    Nat.div_add_mod (now - anchor) len
  have h2 : (now - anchor) % len < len := Nat.mod_lt _ hL
  have hc : ((now - anchor) / len) * len = len * ((now - anchor) / len) :=
    Nat.mul_comm _ _
  omega

/-- C4: for a stale window (now - anchor >= window length), the step-3
effective-window computation used by checkAccess and consume resets the
category counter to 0 and advances the anchor by
floor((now - anchor) / len) * len, i.e. by every whole window length that
has elapsed: the advanced anchor is at least one full window past the old
one and lands within one window length of now. -/
theorem rollover_stale_resets (len now anchor counter : Nat)
    (hstale : len ≤ now - anchor) (hL : 0 < len) :
    (rollover len now anchor counter).2 = 0 ∧
    (rollover len now anchor counter).1 =
      anchor + ((now - anchor) / len) * len ∧
    anchor + len ≤ (rollover len now anchor counter).1 ∧
    now - (rollover len now anchor counter).1 < len := by
  rw [rollover_stale_eq len now anchor counter hstale]
  refine ⟨rfl, rfl, ?_, ?_⟩
  · have hk : 0 < (now - anchor) / len := Nat.div_pos hstale hL
    have h3 : len ≤ ((now - anchor) / len) * len :=
      Nat.le_mul_of_pos_left len hk
    omega
  · exact rollover_lt len now anchor hL

/-- C4 witness: a window of length 30, anchor 5, observed at time 100,
resets the counter and advances the anchor by 3 whole window lengths. -/
theorem rollover_stale_resets_witness :
    (rollover 30 100 5 7).2 = 0 ∧
    (rollover 30 100 5 7).1 = 5 + ((100 - 5) / 30) * 30 ∧
    5 + 30 ≤ (rollover 30 100 5 7).1 ∧
    100 - (rollover 30 100 5 7).1 < 30 :=
  rollover_stale_resets 30 100 5 7 (by decide) (by decide)

/-- C5: window rollover is idempotent: applying the step-3 rollover
computation to its own output yields the same anchor and counter, so two
concurrent requests that both observe a stale window leave the state as if
only one had performed the rollover. -/
theorem rollover_idempotent (len now anchor counter : Nat) :
    rollover len now (rollover len now anchor counter).1
      (rollover len now anchor counter).2 =
    rollover len now anchor counter := by
  by_cases h : len ≤ now - anchor
  · rw [rollover_stale_eq len now anchor counter h]
    rcases Nat.eq_zero_or_pos len with hL | hL
    · subst hL
      simp [rollover]
    · have hlt := rollover_lt len now anchor hL
      exact rollover_fresh len now _ 0 hlt
  · have hlt : now - anchor < len := by omega
    rw [rollover_fresh len now anchor counter hlt]
    exact rollover_fresh len now anchor counter hlt

/-- Updating a counters map reads back the new value at that category. -/
theorem setCounter_same (g : String → Nat) (c : String) (n : Nat) :
    setCounter g c n c = n := by
  simp [setCounter]

/-- Shape of `consume` on a fresh window with sufficient limited quota. -/
theorem consume_allow_eq (cfg : GateConfig) (now : Nat) (p : Principal)
    (fid : String) (f : FeatureDef) (q : Nat)
    (hf : cfg.features fid = some f)
    (ht : f.requiredTier.rank ≤ p.tier.rank)
    (hq : cfg.quota p.tier f.category = Quota.limited q)
    (hw : now - p.windowAnchor < cfg.windowLength)
    (hle : p.counters f.category + f.cost ≤ q) :
    consume cfg now p fid =
      ({ allowed := true, reason := none,
         remaining := Remaining.finite (q - (p.counters f.category + f.cost)),
         minTierNeeded := none },
       { p with counters := setCounter p.counters f.category
                  (p.counters f.category + f.cost) }) := by
  simp only [consume, hf]
  rw [if_neg (by omega)]
  simp only [rollover_fresh _ _ _ _ hw, hq]
  rw [if_neg (by omega)]

/-- Shape of `consume` on a fresh window with insufficient limited quota. -/
theorem consume_deny_eq (cfg : GateConfig) (now : Nat) (p : Principal)
    (fid : String) (f : FeatureDef) (q : Nat)
    (hf : cfg.features fid = some f)
    (ht : f.requiredTier.rank ≤ p.tier.rank)
    (hq : cfg.quota p.tier f.category = Quota.limited q)
    (hw : now - p.windowAnchor < cfg.windowLength)
    (hgt : q < p.counters f.category + f.cost) :
    consume cfg now p fid =
      ({ allowed := false, reason := some DenyReason.quota_exceeded,
         remaining := Remaining.finite (q - p.counters f.category),
         minTierNeeded := none }, p) := by
  simp only [consume, hf]
  rw [if_neg (by omega)]
  simp only [rollover_fresh _ _ _ _ hw, hq]
  rw [if_pos (by omega)]

/-- Shape of `consume` on a fresh window with the unlimited sentinel. -/
theorem consume_unlimited_eq (cfg : GateConfig) (now : Nat) (p : Principal)
    (fid : String) (f : FeatureDef)
    (hf : cfg.features fid = some f)
    (ht : f.requiredTier.rank ≤ p.tier.rank)
    (hq : cfg.quota p.tier f.category = Quota.unlimited)
    (hw : now - p.windowAnchor < cfg.windowLength) :
    consume cfg now p fid =
      ({ allowed := true, reason := none,
         remaining := Remaining.unlimited, minTierNeeded := none },
       { p with counters := setCounter p.counters f.category
                  (p.counters f.category + f.cost) }) := by
  simp only [consume, hf]
  rw [if_neg (by omega)]
  simp only [rollover_fresh _ _ _ _ hw, hq]

/-- C1: within the current window, a successful `consume` strictly
increases the counter of the feature's category by exactly the feature's
cost and reports the new remaining value, while a failed `consume` leaves
the principal (hence the counter) unchanged and carries the deny reason
quota_exceeded. -/
theorem consume_counter_delta (cfg : GateConfig) (now : Nat) (p : Principal)
    (fid : String) (f : FeatureDef)
    (hf : cfg.features fid = some f)
    (ht : f.requiredTier.rank ≤ p.tier.rank)
    (hw : now - p.windowAnchor < cfg.windowLength)
    (hcost : 0 < f.cost) :
    ((consume cfg now p fid).1.allowed = true →
      (consume cfg now p fid).2.counters f.category
          = p.counters f.category + f.cost ∧
      p.counters f.category < (consume cfg now p fid).2.counters f.category ∧
      (∀ q, cfg.quota p.tier f.category = Quota.limited q →
        (consume cfg now p fid).1.remaining
            = Remaining.finite (q - (p.counters f.category + f.cost)))) ∧
    ((consume cfg now p fid).1.allowed = false →
      (consume cfg now p fid).2 = p ∧
      (consume cfg now p fid).1.reason = some DenyReason.quota_exceeded) := by
  cases hq : cfg.quota p.tier f.category with
  | unlimited =>
      rw [consume_unlimited_eq cfg now p fid f hf ht hq hw]
      refine ⟨fun _ => ⟨?_, ?_, ?_⟩, fun hcontra => by simp at hcontra⟩
      · exact setCounter_same _ _ _
      · exact Nat.lt_of_lt_of_eq (by omega)
          (setCounter_same p.counters f.category
            (p.counters f.category + f.cost)).symm
      · intro q hql
        exact absurd hql (by simp)
  | limited q =>
      rcases Nat.lt_or_ge q (p.counters f.category + f.cost) with hgt | hle
      · rw [consume_deny_eq cfg now p fid f q hf ht hq hw hgt]
        exact ⟨fun hcontra => by simp at hcontra, fun _ => ⟨rfl, rfl⟩⟩
      · rw [consume_allow_eq cfg now p fid f q hf ht hq hw hle]
        refine ⟨fun _ => ⟨?_, ?_, ?_⟩, fun hcontra => by simp at hcontra⟩
        · exact setCounter_same _ _ _
        · exact Nat.lt_of_lt_of_eq (by omega)
            (setCounter_same p.counters f.category
              (p.counters f.category + f.cost)).symm
        · intro q2 hql
          cases hql
          rfl

/-- C1 witness: the Core principal at 8 content uses consuming the cost-1
feature moves the counter to 9, a strict increase by the cost. -/
theorem consume_counter_delta_witness :
    (consume sampleCfg 10 p0 "post").2.counters "content"
        = p0.counters "content" + 1 ∧
    p0.counters "content" < (consume sampleCfg 10 p0 "post").2.counters "content" := by
  have h := (consume_counter_delta sampleCfg 10 p0 "post" sampleFeature rfl
      (by decide) (by decide) (by decide)).1 (by decide)
  exact ⟨h.1, h.2.1⟩

/-- C2: `checkAccess` is a pure check: run twice in a row with no
intervening consume it returns the identical decision, and an allow (or any
other outcome) mutates no counter, tier or window anchor of the
principal. -/
theorem checkAccess_pure (cfg : GateConfig) (now : Nat) (p : Principal)
    (fid : String) :
    (checkAccessS cfg now p fid).1
        = (checkAccessS cfg now (checkAccessS cfg now p fid).2 fid).1 ∧
    (checkAccessS cfg now p fid).2.counters = p.counters ∧
    (checkAccessS cfg now p fid).2.tier = p.tier ∧
    (checkAccessS cfg now p fid).2.windowAnchor = p.windowAnchor :=
  ⟨rfl, rfl, rfl, rfl⟩

/-- Unfolding equation for a non-empty consume run. -/
theorem consumeRun_succ (cfg : GateConfig) (now : Nat) (fid : String)
    (n : Nat) (p : Principal) :
    consumeRun cfg now fid (n + 1) p =
      (if (consume cfg now p fid).1.allowed then
        ((consumeRun cfg now fid n (consume cfg now p fid).2).1 + 1,
         (consumeRun cfg now fid n (consume cfg now p fid).2).2.1,
         (consumeRun cfg now fid n (consume cfg now p fid).2).2.2)
      else if (consume cfg now p fid).1.reason = some DenyReason.quota_exceeded then
        ((consumeRun cfg now fid n (consume cfg now p fid).2).1,
         (consumeRun cfg now fid n (consume cfg now p fid).2).2.1 + 1,
         (consumeRun cfg now fid n (consume cfg now p fid).2).2.2)
      else
        ((consumeRun cfg now fid n (consume cfg now p fid).2).1,
         (consumeRun cfg now fid n (consume cfg now p fid).2).2.1,
         (consumeRun cfg now fid n (consume cfg now p fid).2).2.2)) := rfl

/-- Any sequential run of N atomic consumes for one feature, starting with
remaining quota for exactly M of them, yields M successes, N - M
quota_exceeded denials, and a final counter exactly at quota. -/
theorem consumeRun_spec (cfg : GateConfig) (now : Nat) (fid : String)
    (f : FeatureDef) (q : Nat)
    (hf : cfg.features fid = some f)
    (hcost : 0 < f.cost) :
    ∀ (N M : Nat) (p : Principal),
      f.requiredTier.rank ≤ p.tier.rank →
      cfg.quota p.tier f.category = Quota.limited q →
      now - p.windowAnchor < cfg.windowLength →
      p.counters f.category + M * f.cost = q →
      M ≤ N →
      (consumeRun cfg now fid N p).1 = M ∧
      (consumeRun cfg now fid N p).2.1 = N - M ∧
      (consumeRun cfg now fid N p).2.2.counters f.category = q := by
  intro N
  induction N with
  | zero =>
      intro M p ht hq hw hcnt hMN
      have hM0 : M = 0 := Nat.le_zero.mp hMN
      subst hM0
      refine ⟨rfl, rfl, ?_⟩
      show p.counters f.category = q
      omega
  | succ n ih =>
      intro M p ht hq hw hcnt hMN
      cases M with
      | zero =>
          have hgt : q < p.counters f.category + f.cost := by omega
          have hstep := consume_deny_eq cfg now p fid f q hf ht hq hw hgt
          have hrest := ih 0 p ht hq hw (by omega) (Nat.zero_le n)
          rw [consumeRun_succ, hstep]
          refine ⟨?_, ?_, ?_⟩
          · show (consumeRun cfg now fid n p).1 = 0
            exact hrest.1
          · show (consumeRun cfg now fid n p).2.1 + 1 = n + 1 - 0
            omega
          · show (consumeRun cfg now fid n p).2.2.counters f.category = q
            exact hrest.2.2
      | succ m =>
          have hmul : (m + 1) * f.cost = m * f.cost + f.cost := Nat.succ_mul m f.cost
          have hle : p.counters f.category + f.cost ≤ q := by omega
          have hstep := consume_allow_eq cfg now p fid f q hf ht hq hw hle
          set p2 : Principal :=
            { p with counters := setCounter p.counters f.category (p.counters f.category + f.cost) }
            with hp2
          have hc2 : p2.counters f.category = p.counters f.category + f.cost := by
            rw [hp2]
            exact setCounter_same _ _ _
          have hrest := ih m p2 ht hq hw (by omega) (by omega)
          rw [consumeRun_succ, hstep]
          refine ⟨?_, ?_, ?_⟩
          · show (consumeRun cfg now fid n p2).1 + 1 = m + 1
            omega
          · show (consumeRun cfg now fid n p2).2.1 = n + 1 - (m + 1)
            omega
          · show (consumeRun cfg now fid n p2).2.2.counters f.category = q
            exact hrest.2.2

/-- C3: race property under the mandated atomicity of `consume`
(spec section 5): any serialisation of N concurrent equal-cost consume
calls against a principal whose remaining quota suffices for exactly
M < N of them yields exactly M successes and N - M quota_exceeded denials,
with the final counter exactly at the quota, never over. -/
theorem consume_race (cfg : GateConfig) (now : Nat) (fid : String)
    (f : FeatureDef) (q N M : Nat) (p : Principal)
    (hf : cfg.features fid = some f)
    (ht : f.requiredTier.rank ≤ p.tier.rank)
    (hq : cfg.quota p.tier f.category = Quota.limited q)
    (hw : now - p.windowAnchor < cfg.windowLength)
    (hcost : 0 < f.cost)
    (hcnt : p.counters f.category + M * f.cost = q)
    (hMN : M < N) :
    (consumeRun cfg now fid N p).1 = M ∧
    (consumeRun cfg now fid N p).2.1 = N - M ∧
    (consumeRun cfg now fid N p).2.2.counters f.category = q :=
  consumeRun_spec cfg now fid f q hf hcost N M p ht hq hw hcnt (Nat.le_of_lt hMN)

/-- C3 witness: the Core principal at 48 of 50 content uses facing 3
cost-1 consume calls gets exactly 2 successes, 1 quota_exceeded denial,
and a final counter of exactly 50. -/
theorem consume_race_witness :
    (consumeRun sampleCfg 10 "post" 3 pRace).1 = 2 ∧
    (consumeRun sampleCfg 10 "post" 3 pRace).2.1 = 3 - 2 ∧
    (consumeRun sampleCfg 10 "post" 3 pRace).2.2.counters "content" = 50 :=
  consume_race sampleCfg 10 "post" sampleFeature 50 3 2 pRace rfl
    (by decide) (by decide) (by decide) (by decide) (by decide) (by decide)

/-- C6: a tier change alters only the tier: counters are neither clamped
nor refunded, and when the new tier's quota for a category is below the
current counter, the next consume in that category is denied with reason
quota_exceeded and the counter keeps its value. -/
theorem applyTierChange_no_clamp (cfg : GateConfig) (now : Nat) (p : Principal)
    (newTier : Tier) (effectiveAt : Nat) (fid : String) (f : FeatureDef) (q : Nat)
    (heff : effectiveAt ≤ now)
    (hf : cfg.features fid = some f)
    (ht : f.requiredTier.rank ≤ newTier.rank)
    (hq : cfg.quota newTier f.category = Quota.limited q)
    (hover : q < p.counters f.category)
    (hw : now - p.windowAnchor < cfg.windowLength) :
    (applyTierChange p newTier effectiveAt now).counters f.category
        = p.counters f.category ∧
    (consume cfg now (applyTierChange p newTier effectiveAt now) fid).1.allowed
        = false ∧
    (consume cfg now (applyTierChange p newTier effectiveAt now) fid).1.reason
        = some DenyReason.quota_exceeded ∧
    (consume cfg now (applyTierChange p newTier effectiveAt now) fid).2.counters
        f.category = p.counters f.category := by
  have hpt : applyTierChange p newTier effectiveAt now = { p with tier := newTier } := by
    unfold applyTierChange
    rw [if_pos heff]
  rw [hpt]
  have hgt : q < ({ p with tier := newTier } : Principal).counters f.category + f.cost := by
    have he : ({ p with tier := newTier } : Principal).counters f.category
        = p.counters f.category := rfl
    omega
  have hstep := consume_deny_eq cfg now { p with tier := newTier } fid f q hf ht hq hw hgt
  rw [hstep]
  exact ⟨rfl, rfl, rfl, rfl⟩

/-- C6 witness: the Pro principal at 80 of 100 content uses, downgraded to
Core (content quota 50), keeps counter 80 and has its next cost-1 consume
denied with quota_exceeded, counter still 80. -/
theorem applyTierChange_no_clamp_witness :
    (applyTierChange pPro Tier.core 5 10).counters "content"
        = pPro.counters "content" ∧
    (consume sampleCfg 10 (applyTierChange pPro Tier.core 5 10) "post").1.allowed
        = false ∧
    (consume sampleCfg 10 (applyTierChange pPro Tier.core 5 10) "post").1.reason
        = some DenyReason.quota_exceeded ∧
    (consume sampleCfg 10 (applyTierChange pPro Tier.core 5 10) "post").2.counters
        "content" = pPro.counters "content" :=
  applyTierChange_no_clamp sampleCfg 10 pPro Tier.core 5 "post" sampleFeature 50
    (by decide) rfl (by decide) (by decide) (by decide) (by decide)

/-- Only Pro+ reaches the Pro+ rank. -/
theorem rank_ge_proPlus (t : Tier) (h : Tier.proPlus.rank ≤ t.rank) :
    t = Tier.proPlus := by
  cases t
  · exact absurd h (by decide)
  · exact absurd h (by decide)
  · exact absurd h (by decide)
  · rfl

/-- C7: feature unlocking is monotone in tier rank (a feature unlocked at a
tier is unlocked at every higher-ranked tier), while a feature requiring
Pro+ — the tier-exclusive Intelligence Suite case — is unlocked only at
Pro+ and is not inherited downward. -/
theorem tier_monotonicity (cfg : GateConfig) (fid : String) (t u : Tier)
    (f : FeatureDef) (hf : cfg.features fid = some f) :
    (unlockedAt cfg t fid = true → t.rank ≤ u.rank → unlockedAt cfg u fid = true) ∧
    (f.requiredTier = Tier.proPlus → unlockedAt cfg t fid = true → t = Tier.proPlus) := by
  constructor
  · intro hu hr
    simp only [unlockedAt, hf, decide_eq_true_eq] at hu ⊢
    omega
  · intro hx hu
    simp only [unlockedAt, hf, decide_eq_true_eq] at hu
    rw [hx] at hu
    exact rank_ge_proPlus t hu

/-- C7 witness: the Core-tier feature unlocked at Core is unlocked at Pro;
the Pro+-exclusive Intelligence Suite feature is unlocked at Pro+ only,
and in particular is locked at Pro. -/
theorem tier_monotonicity_witness :
    unlockedAt sampleCfg Tier.pro "post" = true ∧
    Tier.proPlus = Tier.proPlus ∧
    unlockedAt sampleCfg Tier.pro "competitor_intel" = false :=
  ⟨(tier_monotonicity sampleCfg "post" Tier.core Tier.pro sampleFeature rfl).1
      (by decide) (by decide),
   (tier_monotonicity sampleCfg "competitor_intel" Tier.proPlus Tier.free
      intelFeature rfl).2 rfl (by decide),
   by decide⟩

/-- C8: when the principal's tier rank is strictly below the feature's
required minimum tier rank, checkAccess denies with reason
tier_insufficient and reports the minimum tier needed. -/
theorem checkAccess_tier_gate (cfg : GateConfig) (now : Nat) (p : Principal)
    (fid : String) (f : FeatureDef)
    (hf : cfg.features fid = some f)
    (ht : p.tier.rank < f.requiredTier.rank) :
    checkAccess cfg now p fid =
      { allowed := false, reason := some DenyReason.tier_insufficient,
        remaining := Remaining.finite 0, minTierNeeded := some f.requiredTier } := by
  simp only [checkAccess, hf]
  rw [if_pos ht]

/-- C8 witness: a Free-tier principal requesting the Core-required feature
is denied with tier_insufficient and told Core is the minimum tier. -/
theorem checkAccess_tier_gate_witness :
    checkAccess sampleCfg 10 pFree "post" =
      { allowed := false, reason := some DenyReason.tier_insufficient,
        remaining := Remaining.finite 0, minTierNeeded := some Tier.core } :=
  checkAccess_tier_gate sampleCfg 10 pFree "post" sampleFeature rfl (by decide)

/-! Theme configuration and routes, translated from src/app.js. -/

/-- A theme object as configured in src/app.js lines 40-69. -/
structure Theme where
  name : String
  primary : String
  secondary : String
  accent : String
  background : String
  surface : String
  text : String
  textSecondary : String
  border : String
  error : String
  warning : String
  success : String
deriving DecidableEq, Repr

/-- The light theme object of src/app.js. -/
def lightTheme : Theme :=
  { name := "light", primary := "#3B82F6", secondary := "#1F2937",
    accent := "#10B981", background := "#FFFFFF", surface := "#F3F4F6",
    text := "#111827", textSecondary := "#6B7280", border := "#E5E7EB",
    error := "#EF4444", warning := "#F59E0B", success := "#10B981" }

/-- The dark theme object of src/app.js. -/
def darkTheme : Theme :=
  { name := "dark", primary := "#60A5FA", secondary := "#F3F4F6",
    accent := "#34D399", background := "#111827", surface := "#1F2937",
    text := "#F3F4F6", textSecondary := "#9CA3AF", border := "#374151",
    error := "#F87171", warning := "#FBBF24", success := "#6EE7B7" }

/-- Own-key lookup in the themeConfig object of src/app.js: only "light"
and "dark" are own keys (this is what Object.keys reports; the bracket
lookup the handler performs is `themeLookup` below, which also searches the
prototype chain). -/
def themeConfig (mode : String) : Option Theme :=
  if mode = "light" then some lightTheme
  else if mode = "dark" then some darkTheme
  else none

/-- Object.keys(themeConfig) in src/app.js. -/
def themeModeKeys : List String := ["light", "dark"]

/-- Property names a plain JS object literal inherits from
Object.prototype; reading any of them yields a function (or, for
__proto__, an object), i.e. a truthy value. -/
def objectProtoKeys : List String :=
  ["constructor", "hasOwnProperty", "isPrototypeOf", "propertyIsEnumerable",
   "toLocaleString", "toString", "valueOf", "__defineGetter__",
   "__defineSetter__", "__lookupGetter__", "__lookupSetter__", "__proto__"]

/-- Outcome of the JS bracket lookup `themeConfig[mode]`: an own key holds
a theme object, an inherited Object.prototype member is a truthy non-theme
value, anything else is undefined (falsy). -/
inductive JsLookup
  | themeVal (t : Theme)
  | protoVal
  | undef
deriving DecidableEq, Repr

/-- The bracket lookup `themeConfig[mode]` of src/app.js line 173: own
keys "light"/"dark" first, then the prototype chain (Object.prototype
members), else undefined. -/
def themeLookup (mode : String) : JsLookup :=
  if mode = "light" then JsLookup.themeVal lightTheme
  else if mode = "dark" then JsLookup.themeVal darkTheme
  else if objectProtoKeys.contains mode then JsLookup.protoVal
  else JsLookup.undef

/-- The JSON response shape of the /api/theme/:mode handler. -/
structure ThemeResponse where
  status : Nat
  success : Bool
  message : Option String
  theme : Option Theme
  available : Option (List String)
  allThemes : Option (List String)
deriving DecidableEq, Repr

/-- The GET /api/theme/:mode handler of src/app.js lines 171-188: the
optional mode parameter defaults to "light" when absent (the JS
`req.params.mode || 'light'` also treats an empty string as absent); the
handler takes the 400 branch only when the bracket lookup is falsy
(undefined), so a mode naming an inherited Object.prototype member is
truthy and answers 200 with success true (the function value is dropped by
the JSON serialisation, hence no theme object); an own key answers 200
with the theme and success true. -/
def themeHandler (modeParam : Option String) : ThemeResponse :=
  let mode := match modeParam with
    | none => "light"
    | some s => if s = "" then "light" else s
  match themeLookup mode with
  | JsLookup.undef =>
      { status := 400, success := false, message := some "Invalid theme mode",
        theme := none, available := some themeModeKeys, allThemes := none }
  | JsLookup.themeVal t =>
      { status := 200, success := true, message := none,
        theme := some t, available := none, allThemes := some themeModeKeys }
  | JsLookup.protoVal =>
      { status := 200, success := true, message := none,
        theme := none, available := none, allThemes := some themeModeKeys }

/-- The bracket lookup misses exactly when the mode is neither an own key
of themeConfig nor an inherited Object.prototype member. -/
theorem themeLookup_undef_iff (s : String) :
    themeLookup s = JsLookup.undef ↔
      (themeConfig s = none ∧ objectProtoKeys.contains s = false) := by
  unfold themeLookup themeConfig
  by_cases h1 : s = "light"
  · simp [h1]
  · by_cases h2 : s = "dark"
    · simp [h1, h2]
    · cases h3 : objectProtoKeys.contains s with
      | true => simp [h1, h2, h3]
      | false => simp [h1, h2, h3]

/-- C9 counterexample: the 400-iff is false on the code at the present
non-key mode "toString": the JS bracket lookup finds the inherited
Object.prototype member, a truthy value, so the handler answers 200 with
success true although "toString" is not a key of themeConfig. -/
theorem theme_route_claim_false :
    ¬ (((themeHandler (some "toString")).status = 400 ∧
        (themeHandler (some "toString")).success = false) ↔
        (∃ s, some "toString" = some s ∧ themeConfig s = none)) := by
  intro h
  have hr : ∃ s, (some "toString" : Option String) = some s ∧ themeConfig s = none :=
    ⟨"toString", rfl, by decide⟩
  have hl := h.mpr hr
  exact absurd hl.1 (by decide)

/-- C9 (amended): the theme handler answers 400 with success false exactly
when a mode parameter is present (route-captured parameters are non-empty)
and the bracket lookup themeConfig[mode] finds nothing: the mode is
neither a key of themeConfig nor an inherited Object.prototype member; an
omitted mode defaults to "light", returning the light theme with success
true. -/
theorem theme_route_spec (modeParam : Option String)
    (hpar : modeParam ≠ some "") :
    (((themeHandler modeParam).status = 400 ∧
      (themeHandler modeParam).success = false) ↔
      (∃ s, modeParam = some s ∧ themeConfig s = none ∧
        objectProtoKeys.contains s = false)) ∧
    themeHandler none =
      { status := 200, success := true, message := none,
        theme := some lightTheme, available := none,
        allThemes := some themeModeKeys } := by
  refine ⟨?_, rfl⟩
  cases modeParam with
  | none =>
      constructor
      · intro hh
        exact absurd hh.1 (by decide)
      · intro hcontra
        rcases hcontra with ⟨s, hs, _⟩
        exact Option.noConfusion hs
  | some s =>
      have hs0 : s ≠ "" := by
        intro he
        exact hpar (by rw [he])
      have hh : themeHandler (some s) =
          match themeLookup s with
          | JsLookup.undef =>
              { status := 400, success := false, message := some "Invalid theme mode",
                theme := none, available := some themeModeKeys, allThemes := none }
          | JsLookup.themeVal t =>
              { status := 200, success := true, message := none,
                theme := some t, available := none, allThemes := some themeModeKeys }
          | JsLookup.protoVal =>
              { status := 200, success := true, message := none,
                theme := none, available := none, allThemes := some themeModeKeys } := by
        simp only [themeHandler, if_neg hs0]
      rw [hh]
      cases hcfg : themeLookup s with
      | undef =>
          constructor
          · intro _
            rcases (themeLookup_undef_iff s).mp hcfg with ⟨hn, hp⟩
            exact ⟨s, rfl, hn, hp⟩
          · intro _
            exact ⟨rfl, rfl⟩
      | themeVal t =>
          constructor
          · intro hcontra
            have h200 : (200 : Nat) = 400 := hcontra.1
            exact absurd h200 (by decide)
          · intro hcontra
            rcases hcontra with ⟨s2, hs2, hn, hp⟩
            cases hs2
            have hu : themeLookup s = JsLookup.undef :=
              (themeLookup_undef_iff s).mpr ⟨hn, hp⟩
            rw [hcfg] at hu
            exact JsLookup.noConfusion hu
      | protoVal =>
          constructor
          · intro hcontra
            have h200 : (200 : Nat) = 400 := hcontra.1
            exact absurd h200 (by decide)
          · intro hcontra
            rcases hcontra with ⟨s2, hs2, hn, hp⟩
            cases hs2
            have hu : themeLookup s = JsLookup.undef :=
              (themeLookup_undef_iff s).mpr ⟨hn, hp⟩
            rw [hcfg] at hu
            exact JsLookup.noConfusion hu

/-- C9 witness: the mode "blue" — present, no own key, no Object.prototype
member — hits the 400 branch, and the omitted mode returns the light theme
with success true. -/
theorem theme_route_spec_witness :
    (((themeHandler (some "blue")).status = 400 ∧
      (themeHandler (some "blue")).success = false) ↔
      (∃ s, some "blue" = some s ∧ themeConfig s = none ∧
        objectProtoKeys.contains s = false)) ∧
    themeHandler none =
      { status := 200, success := true, message := none,
        theme := some lightTheme, available := none,
        allThemes := some themeModeKeys } :=
  theme_route_spec (some "blue") (by decide)

/-! Data-route authentication wiring, translated from src/app.js. -/

/-- The JSON error body issued by requireAuth in src/app.js lines 147-156. -/
structure ErrorBody where
  status : Nat
  success : Bool
  message : String
  error : String
deriving DecidableEq, Repr

/-- The requireAuth middleware of src/app.js lines 147-156: when req.user
is unset it short-circuits with a 401 success-false body, otherwise it
passes the request through (returns no error). -/
def requireAuth (user : Option String) : Option ErrorBody :=
  match user with
  | none => some { status := 401, success := false,
                   message := "Authentication required", error := "Unauthorized" }
  | some _ => none

/-- The 401 body requireAuth produces. -/
def authErrorBody : ErrorBody :=
  { status := 401, success := false,
    message := "Authentication required", error := "Unauthorized" }

/-- HTTP methods wired for /api/data routes in src/app.js. -/
inductive HttpMethod
  | get
  | post
  | put
  | delete
deriving DecidableEq, Repr

/-- Which /api/data/:table route registrations include requireAuth in
their middleware chain (src/app.js lines 447, 494, 532, 569): GET has no
auth middleware; POST, PUT and DELETE do. -/
def dataRouteHasRequireAuth : HttpMethod → Bool
  | .get => false
  | .post => true
  | .put => true
  | .delete => true

/-- The authentication gate a /api/data request passes before its handler
runs: the requireAuth outcome when the route includes it, and no gate at
all otherwise. `none` means the handler proceeds. -/
def dataRouteGate (m : HttpMethod) (user : Option String) : Option ErrorBody :=
  if dataRouteHasRequireAuth m then requireAuth user else none

/-- C10: GET /api/data/:table reaches its handler with no authentication
check whatever req.user is, while POST, PUT and DELETE pass through
requireAuth, which blocks with the 401 success-false body exactly when
req.user is unset. -/
theorem data_routes_auth (user : Option String) :
    dataRouteGate HttpMethod.get user = none ∧
    dataRouteHasRequireAuth HttpMethod.post = true ∧
    dataRouteHasRequireAuth HttpMethod.put = true ∧
    dataRouteHasRequireAuth HttpMethod.delete = true ∧
    (∀ m, dataRouteHasRequireAuth m = true →
      (dataRouteGate m user = some authErrorBody ↔ user = none)) := by
  refine ⟨rfl, rfl, rfl, rfl, ?_⟩
  intro m hm
  cases user with
  | none => simp [dataRouteGate, hm, requireAuth, authErrorBody]
  | some u => simp [dataRouteGate, hm, requireAuth]

/-- C10 witness: with no user, GET still proceeds while POST is blocked
with the 401 body. -/
theorem data_routes_auth_witness :
    dataRouteGate HttpMethod.get none = none ∧
    (dataRouteGate HttpMethod.post none = some authErrorBody ↔
      (none : Option String) = none) :=
  ⟨(data_routes_auth none).1, (data_routes_auth none).2.2.2.2 HttpMethod.post rfl⟩

end Swiftboost
